import Mathlib

/- Verification development for the tchak/orbit JSON:API adapter.

   Two parts are embedded.  The query expression builder is translated
   directly from src/src/query-term.ts.  The push pipeline (operation
   translation, request planning, execution and response merging) has no
   implementation under src/ - only its test suite, src/unnamed/part_000,
   is present - so those definitions are modelled from the specification
   document, faithful to its words and to the behaviour pinned by the
   tests; each such definition says so in its doc comment. -/

/-- From src/src/query-term.ts: the expression tree nodes built through
oqe.  The source builds untyped tagged nodes; every tag that query-term.ts
produces is a constructor here.  The tag written as a-t-t-r-i-b-u-t-e in
the source is named attr here because that word is reserved in Lean.
Values carried by equal nodes and page options are embedded as strings. -/
inductive QueryExpression where
  | get (path : String)
  | attr (name : String)
  | equal (expr : QueryExpression) (value : String)
  | and (exprs : List QueryExpression)
  | record (ty : String) (id : String)
  | relatedRecord (ty : String) (id : String) (relationship : String)
  | relatedRecords (ty : String) (id : String) (relationship : String)
  | filter (source : QueryExpression) (predicate : QueryExpression)
  | sort (source : QueryExpression) (specs : List (QueryExpression × String))
  | page (source : QueryExpression) (options : List (String × String))

/-- From src/src/query-term.ts: the parsed sort specifier, a field
expression together with an order string. -/
structure SortSpecifier where
  field : QueryExpression
  order : String

/-- Model of a JavaScript value passed as a sort expression to
Records.sort: an object carrying optional attribute and order string
fields, a plain string, or any other value (neither object nor string,
as decided by the isObject helper from src/utils/objects). -/
inductive SortParam where
  | obj (attr : Option String) (order : Option String)
  | str (s : String)
  | other

/-- From src/src/query-term.ts, Records.filterAttributes: one equal node
per map entry, combined with an and node only when the map holds more
than one entry; a single condition is passed through unwrapped.  The
attribute map is embedded as the ordered entry list that Object.keys
iterates.  The result is the expression of the returned QueryTerm. -/
def Records.filterAttributes (self : QueryExpression)
    (attributeValues : List (String × String)) : QueryExpression :=
  let attributeExpressions := attributeValues.map
    (fun kv => QueryExpression.equal (QueryExpression.attr kv.1) kv.2)
  let andExpression :=
    match attributeExpressions with
    | [e] => e
    | es => QueryExpression.and es
  QueryExpression.filter self andExpression

/-- From src/src/query-term.ts, parseSortExpressionObject.  The source
reads sortExpression.order with a JavaScript or-default: every falsy
value falls back to the string ascending.  The only falsy string is the
empty string, so an empty order string is treated like an absent one. -/
def parseSortExpressionObject (attrOpt : Option String)
    (orderOpt : Option String) : Except String SortSpecifier :=
  match attrOpt with
  | none => Except.error "Unsupported sort field type."
  | some a =>
    let order :=
      match orderOpt with
      | none => "ascending"
      | some s => if s = "" then "ascending" else s
    if order ≠ "ascending" ∧ order ≠ "descending" then
      Except.error "Invalid sort order."
    else
      Except.ok { field := QueryExpression.attr a, order := order }

/-- From src/src/query-term.ts, parseCompactSortExpression: a leading
minus character selects descending order on the remaining substring and
any other string yields an ascending sort on the whole string. -/
def parseCompactSortExpression (s : String) : SortSpecifier :=
  match s.data with
  | [] => { field := QueryExpression.attr s, order := "ascending" }
  | c :: rest =>
    if c = '-' then
      { field := QueryExpression.attr (String.mk rest), order := "descending" }
    else
      { field := QueryExpression.attr s, order := "ascending" }

/-- From src/src/query-term.ts, parseSortExpression: objects and strings
are parsed, every other value is refused. -/
def parseSortExpression : SortParam → Except String SortSpecifier
  | SortParam.obj a o => parseSortExpressionObject a o
  | SortParam.str s => Except.ok (parseCompactSortExpression s)
  | SortParam.other =>
    Except.error "Sort expression must be either an object or a string."

/-- From src/src/query-term.ts, Records.sort: every argument is parsed
and a sort node is built; the first parse failure propagates, as the
thrown exception does in the source. -/
def Records.sort (self : QueryExpression) (sortExpressions : List SortParam) :
    Except String QueryExpression := do
  let specs ← sortExpressions.mapM parseSortExpression
  Except.ok (QueryExpression.sort self (specs.map (fun sp => (sp.field, sp.order))))

/-- Modelled from the spec: the minimal record reference carried by an
operation (spec section 3).  The jsonapi-source implementation this and
the following definitions model is absent from src/; only its test
suite, src/unnamed/part_000, is present. -/
structure RecordIdentity where
  type : String
  id : String
deriving DecidableEq

/-- Modelled from the spec: a local record (spec section 3).  Identity is
the pair of type and local primary id; secondary keys are resolved
through the external key map, which is carried separately. -/
structure Record where
  type : String
  id : String
  attributes : List (String × String)
deriving DecidableEq

/-- Modelled from the spec: a wire level resource identifier. -/
structure ResourceIdentity where
  type : String
  id : String
deriving DecidableEq

/-- Modelled from the spec: relationship data on a wire resource (spec
section 4.1): has-one data, possibly cleared, or ordered has-many data. -/
inductive RelationshipData where
  | hasOne (data : Option ResourceIdentity)
  | hasMany (data : List ResourceIdentity)
deriving DecidableEq

/-- Modelled from the spec: a wire Resource fragment (spec section 4.1);
the id member is absent in the server assigned id case, the type member
is always present. -/
structure Resource where
  type : String
  id : Option String
  attributes : List (String × String)
  relationships : List (String × RelationshipData)
deriving DecidableEq

/-- Modelled from the spec: the external key map (spec sections 3 and 5),
an association from local record identity to the value of the configured
secondary key. -/
abbrev KeyMap := List ((String × String) × String)

/-- Modelled from the spec: key map lookup, local identity to remote id. -/
def KeyMap.lookup : KeyMap → String → String → Option String
  | [], _, _ => none
  | e :: rest, ty, lid =>
    if e.1 = (ty, lid) then some e.2 else KeyMap.lookup rest ty lid

/-- Modelled from the spec: registering a secondary key binding (spec
section 4.1). -/
def KeyMap.insert (km : KeyMap) (ty lid v : String) : KeyMap :=
  ((ty, lid), v) :: km

/-- Modelled from the spec: reverse lookup of a local id from a remote
id, used when deserializing incoming resources. -/
def KeyMap.reverseLookup : KeyMap → String → String → Option String
  | [], _, _ => none
  | e :: rest, ty, v =>
    if e.1.1 = ty ∧ e.2 = v then some e.1.2 else KeyMap.reverseLookup rest ty v

/-- Modelled from the spec: the tagged union of mutation operations
(spec section 3). -/
inductive Operation where
  | addRecord (record : Record)
  | updateRecord (record : Record)
  | removeRecord (record : RecordIdentity)
  | replaceAttribute (record : RecordIdentity) (attr : String) (value : String)
  | replaceKey (record : RecordIdentity) (key : String) (value : String)
  | addToRelatedRecords (record : RecordIdentity) (relationship : String)
      (relatedRecord : RecordIdentity)
  | removeFromRelatedRecords (record : RecordIdentity) (relationship : String)
      (relatedRecord : RecordIdentity)
  | replaceRelatedRecord (record : RecordIdentity) (relationship : String)
      (relatedRecord : Option RecordIdentity)
  | replaceRelatedRecords (record : RecordIdentity) (relationship : String)
      (relatedRecords : List RecordIdentity)
deriving DecidableEq

/-- Modelled from the spec: a Transform, an ordered group of operations
with an id (spec section 3). -/
structure Transform where
  id : String
  operations : List Operation
deriving DecidableEq

/-- Modelled from the spec: the HTTP methods used by the translator
(spec section 4.3). -/
inductive Method where
  | get
  | post
  | patch
  | delete
deriving DecidableEq

/-- Modelled from the spec: the data member of a request body, either a
resource fragment or a list of resource identifiers. -/
inductive RequestDocData where
  | res (resource : Resource)
  | identifiers (ids : List ResourceIdentity)
deriving DecidableEq

/-- Modelled from the spec: a JSON API request body. -/
structure RequestDoc where
  data : RequestDocData
deriving DecidableEq

/-- Modelled from the spec: a Request descriptor (spec section 3). -/
structure Request where
  method : Method
  url : String
  headers : List (String × String)
  body : Option RequestDoc
  timeoutMs : Option Nat
deriving DecidableEq

/-- Modelled from the spec: a ResponseDocument (spec section 3). -/
structure ResponseDoc where
  data : Option Resource
  included : List Resource
deriving DecidableEq

/-- Modelled from the spec: a resolved transport response: HTTP status,
optional parsed document and the resolution delay in milliseconds (spec
sections 4.5 and 6). -/
structure TransportResponse where
  status : Nat
  document : Option ResponseDoc
  delay : Nat
deriving DecidableEq

/-- Modelled from the spec: what the transport did with a request:
resolve with a response, or reject after some delay with an underlying
failure description (spec section 4.5). -/
inductive TransportOutcome where
  | resolved (response : TransportResponse)
  | rejected (reason : String) (delay : Nat)
deriving DecidableEq

/-- Modelled from the spec: the error taxonomy (spec section 7), plus the
failure of the section 3 invariant that every referenced record must be
resolvable to a wire id. -/
inductive PushError where
  | transformNotAllowed
  | networkError (description : String)
  | clientError (description : String)
  | serverError (description : String)
  | unresolvableRecord
deriving DecidableEq

/-- Modelled from the spec: source level configuration (spec section 6):
the configured secondary key, the request ceiling (unbounded by default)
and the default timeout. -/
structure SourceConfig where
  secondaryKey : String
  maxRequestsPerTransform : Option Nat
  defaultTimeout : Option Nat
deriving DecidableEq

/-- Modelled from the spec: per call options (spec section 6). -/
structure PushOptions where
  timeout : Option Nat
  url : Option String
deriving DecidableEq

/-- Modelled from the spec: the externally owned mutable collaborators,
the key map and the transform log (spec sections 3 and 5). -/
structure PushState where
  keyMap : KeyMap
  log : List String
deriving DecidableEq

/-- Modelled from the spec: the call level timeout takes precedence over
the source level default (spec sections 4.5 and 6). -/
def effectiveTimeout (opts : PushOptions) (cfg : SourceConfig) : Option Nat :=
  match opts.timeout with
  | some t => some t
  | none => cfg.defaultTimeout

/-- Modelled from the spec: the collection path for a type (spec section
4.3); the tests pin the shape of slash, type, plural s. -/
def collectionPath (ty : String) : String := "/" ++ ty ++ "s"

/-- Modelled from the spec: the resource path (spec section 4.3). -/
def resourcePath (ty rid : String) : String := collectionPath ty ++ "/" ++ rid

/-- Modelled from the spec: the relationship path (spec section 4.3). -/
def relationshipPath (ty rid rel : String) : String :=
  resourcePath ty rid ++ "/relationships/" ++ rel

/-- Modelled from the spec: the JSON API content type header carried by
every request except a DELETE with no body (spec section 4.3). -/
def jsonapiHeaders : List (String × String) :=
  [("Content-Type", "application/vnd.api+json")]

/-- Modelled from the spec: serialization of a record (spec section 4.1):
the wire id is the secondary key binding when one is known and is omitted
otherwise; the type is always included. -/
def serializeRecord (km : KeyMap) (r : Record) : Resource :=
  { type := r.type, id := KeyMap.lookup km r.type r.id,
    attributes := r.attributes, relationships := [] }

/-- Modelled from the spec: the wire identifier of a referenced record;
the invariant of spec section 3 requires the reference to be resolvable
through the key map before translation. -/
def resourceIdentity (km : KeyMap) (rid : RecordIdentity) :
    Except PushError ResourceIdentity :=
  match KeyMap.lookup km rid.type rid.id with
  | some wid => Except.ok { type := rid.type, id := wid }
  | none => Except.error PushError.unresolvableRecord

/-- Modelled from the spec: the Operation Translator (spec section 4.3):
one request per operation following the method and url table; replaceKey
is not sent over the wire; a caller supplied url replaces the computed
target verbatim. -/
def translateOp (cfg : SourceConfig) (opts : PushOptions) (km : KeyMap) :
    Operation → Except PushError (Option Request)
  | Operation.addRecord r =>
    Except.ok (some
      { method := Method.post, url := (opts.url).getD (collectionPath r.type),
        headers := jsonapiHeaders,
        body := some { data := RequestDocData.res (serializeRecord km r) },
        timeoutMs := effectiveTimeout opts cfg })
  | Operation.updateRecord r =>
    match KeyMap.lookup km r.type r.id with
    | some wid =>
      Except.ok (some
        { method := Method.patch, url := (opts.url).getD (resourcePath r.type wid),
          headers := jsonapiHeaders,
          body := some { data := RequestDocData.res (serializeRecord km r) },
          timeoutMs := effectiveTimeout opts cfg })
    | none => Except.error PushError.unresolvableRecord
  | Operation.removeRecord rid =>
    match KeyMap.lookup km rid.type rid.id with
    | some wid =>
      Except.ok (some
        { method := Method.delete, url := (opts.url).getD (resourcePath rid.type wid),
          headers := [], body := none, timeoutMs := effectiveTimeout opts cfg })
    | none => Except.error PushError.unresolvableRecord
  | Operation.replaceAttribute rid a v =>
    match KeyMap.lookup km rid.type rid.id with
    | some wid =>
      Except.ok (some
        { method := Method.patch, url := (opts.url).getD (resourcePath rid.type wid),
          headers := jsonapiHeaders,
          body := some
            { data :=
                RequestDocData.res
                  { type := rid.type, id := some wid,
                    attributes := [(a, v)], relationships := [] } },
          timeoutMs := effectiveTimeout opts cfg })
    | none => Except.error PushError.unresolvableRecord
  | Operation.replaceKey _ _ _ => Except.ok none
  | Operation.addToRelatedRecords rid rel related =>
    match KeyMap.lookup km rid.type rid.id with
    | some wid =>
      match resourceIdentity km related with
      | Except.ok relId =>
        Except.ok (some
          { method := Method.post,
            url := (opts.url).getD (relationshipPath rid.type wid rel),
            headers := jsonapiHeaders,
            body := some { data := RequestDocData.identifiers [relId] },
            timeoutMs := effectiveTimeout opts cfg })
      | Except.error e => Except.error e
    | none => Except.error PushError.unresolvableRecord
  | Operation.removeFromRelatedRecords rid rel related =>
    match KeyMap.lookup km rid.type rid.id with
    | some wid =>
      match resourceIdentity km related with
      | Except.ok relId =>
        Except.ok (some
          { method := Method.delete,
            url := (opts.url).getD (relationshipPath rid.type wid rel),
            headers := jsonapiHeaders,
            body := some { data := RequestDocData.identifiers [relId] },
            timeoutMs := effectiveTimeout opts cfg })
      | Except.error e => Except.error e
    | none => Except.error PushError.unresolvableRecord
  | Operation.replaceRelatedRecord rid rel relatedOpt =>
    match KeyMap.lookup km rid.type rid.id with
    | some wid =>
      match relatedOpt with
      | none =>
        Except.ok (some
          { method := Method.patch, url := (opts.url).getD (resourcePath rid.type wid),
            headers := jsonapiHeaders,
            body := some
              { data :=
                  RequestDocData.res
                    { type := rid.type, id := some wid, attributes := [],
                      relationships := [(rel, RelationshipData.hasOne none)] } },
            timeoutMs := effectiveTimeout opts cfg })
      | some related =>
        match resourceIdentity km related with
        | Except.ok relId =>
          Except.ok (some
            { method := Method.patch, url := (opts.url).getD (resourcePath rid.type wid),
              headers := jsonapiHeaders,
              body := some
                { data :=
                    RequestDocData.res
                      { type := rid.type, id := some wid, attributes := [],
                        relationships := [(rel, RelationshipData.hasOne (some relId))] } },
              timeoutMs := effectiveTimeout opts cfg })
        | Except.error e => Except.error e
    | none => Except.error PushError.unresolvableRecord
  | Operation.replaceRelatedRecords rid rel relateds =>
    match KeyMap.lookup km rid.type rid.id with
    | some wid =>
      match relateds.mapM (resourceIdentity km) with
      | Except.ok relIds =>
        Except.ok (some
          { method := Method.patch, url := (opts.url).getD (resourcePath rid.type wid),
            headers := jsonapiHeaders,
            body := some
              { data :=
                  RequestDocData.res
                    { type := rid.type, id := some wid, attributes := [],
                      relationships := [(rel, RelationshipData.hasMany relIds)] } },
            timeoutMs := effectiveTimeout opts cfg })
      | Except.error e => Except.error e
    | none => Except.error PushError.unresolvableRecord

/-- Modelled from the spec: a human readable status text for the
statuses the tests exercise (spec section 4.5). -/
def statusText (status : Nat) : String :=
  if status = 404 then "Not Found"
  else if status = 422 then "Unprocessable Entity"
  else if status = 500 then "Internal Server Error"
  else "HTTP " ++ toString status

/-- Modelled from the spec: outcome classification (spec section 4.5):
a 4xx status is a Client error, a 5xx status a Server error, a 204 or
empty body success carries no document. -/
def classifyResponse (resp : TransportResponse) :
    Except PushError (Option ResponseDoc) :=
  if 500 ≤ resp.status then Except.error (PushError.serverError (statusText resp.status))
  else if 400 ≤ resp.status then Except.error (PushError.clientError (statusText resp.status))
  else if resp.status = 204 then Except.ok none
  else Except.ok resp.document

/-- Modelled from the spec: racing an outcome against the effective
timeout (spec section 4.5): when the transport takes longer than the
threshold the result is a Network error whose description states the
exact millisecond threshold. -/
def raceTimeout (t : Option Nat) (delay : Nat)
    (k : Except PushError (Option ResponseDoc)) :
    Except PushError (Option ResponseDoc) :=
  match t with
  | none => k
  | some tt =>
    if tt < delay then
      Except.error (PushError.networkError
        ("No fetch response within " ++ toString tt ++ "ms."))
    else k

/-- Modelled from the spec: request execution (spec section 4.5): the
transport call is raced against the request timeout; a transport level
rejection inside the deadline is a Network error carrying the underlying
description verbatim. -/
def execute (transport : Request → TransportOutcome) (req : Request) :
    Except PushError (Option ResponseDoc) :=
  match transport req with
  | TransportOutcome.resolved resp =>
    raceTimeout req.timeoutMs resp.delay (classifyResponse resp)
  | TransportOutcome.rejected reason d =>
    raceTimeout req.timeoutMs d (Except.error (PushError.networkError reason))

/-- Modelled from the spec: association lookup in an attribute list. -/
def lookupAssoc : List (String × String) → String → Option String
  | [], _ => none
  | kv :: rest, k => if kv.1 = k then some kv.2 else lookupAssoc rest k

/-- Modelled from the spec: the response attribute values that differ
from what was sent (spec section 4.6), in response order. -/
def changedAttributes (sent resp : List (String × String)) :
    List (String × String) :=
  resp.filter (fun kv => !(lookupAssoc sent kv.1 == some kv.2))

/-- Modelled from the spec: the attributes a request body sent. -/
def sentAttributesOf (sentBody : Option RequestDoc) : List (String × String) :=
  match sentBody with
  | some ⟨RequestDocData.res r⟩ => r.attributes
  | _ => []

/-- Modelled from the spec: the wire id a request body sent. -/
def sentIdOf (sentBody : Option RequestDoc) : Option String :=
  match sentBody with
  | some ⟨RequestDocData.res r⟩ => r.id
  | _ => none

/-- Modelled from the spec: the merge of a replaceAttribute or
updateRecord response (spec section 4.6): one combined Transform holding
a replaceAttribute per changed field followed by a replaceKey when the
response id differs from the sent id; nothing is emitted when nothing
changed. -/
def attrMerge (cfg : SourceConfig) (km : KeyMap) (rid : RecordIdentity)
    (sentBody : Option RequestDoc) (res : Resource) (fuBase : String) :
    KeyMap × List Transform :=
  let changed := changedAttributes (sentAttributesOf sentBody) res.attributes
  let attrOps := changed.map (fun kv => Operation.replaceAttribute rid kv.1 kv.2)
  match res.id with
  | some newId =>
    if sentIdOf sentBody = some newId then
      if attrOps = [] then (km, [])
      else (km, [{ id := fuBase ++ "-attrs", operations := attrOps }])
    else
      (KeyMap.insert km rid.type rid.id newId,
       [{ id := fuBase ++ "-attrs",
          operations := attrOps ++
            [Operation.replaceKey rid cfg.secondaryKey newId] }])
  | none =>
    if attrOps = [] then (km, [])
    else (km, [{ id := fuBase ++ "-attrs", operations := attrOps }])

/-- Modelled from the spec: the merge of the primary resource (spec
section 4.6): a create whose response carries a different or additional
id yields a single operation replaceKey Transform binding the configured
secondary key and registers the binding in the key map; replaceAttribute
and updateRecord responses merge attribute changes; other operations
have no primary merge. -/
def mergePrimary (cfg : SourceConfig) (km : KeyMap) (op : Operation)
    (sentBody : Option RequestDoc) (data : Option Resource) (fuBase : String) :
    KeyMap × List Transform :=
  match data with
  | none => (km, [])
  | some res =>
    match op with
    | Operation.addRecord r =>
      match res.id with
      | some sid =>
        if KeyMap.lookup km r.type r.id = some sid then (km, [])
        else
          (KeyMap.insert km r.type r.id sid,
           [{ id := fuBase ++ "-key",
              operations := [Operation.replaceKey { type := r.type, id := r.id }
                cfg.secondaryKey sid] }])
      | none => (km, [])
    | Operation.replaceAttribute rid _ _ => attrMerge cfg km rid sentBody res fuBase
    | Operation.updateRecord r =>
      attrMerge cfg km { type := r.type, id := r.id } sentBody res fuBase
    | _ => (km, [])

/-- Modelled from the spec: deserialization of an included resource
(spec section 4.1): the local id is recovered through the key map when
the binding is known and synthesized otherwise. -/
def deserializeIncluded (km : KeyMap) (res : Resource) : Record :=
  let lid :=
    match res.id with
    | some rid =>
      (KeyMap.reverseLookup km res.type rid).getD ("local-" ++ res.type ++ "-" ++ rid)
    | none => "local-" ++ res.type
  { type := res.type, id := lid, attributes := res.attributes }

/-- Modelled from the spec: the Response Merger (spec section 4.6): the
primary merge first, then one Transform per request holding an
updateRecord per side loaded resource, in included order. -/
def merge (cfg : SourceConfig) (km : KeyMap) (op : Operation)
    (sentBody : Option RequestDoc) (doc : Option ResponseDoc) (fuBase : String) :
    KeyMap × List Transform :=
  match doc with
  | none => (km, [])
  | some d =>
    let pr := mergePrimary cfg km op sentBody d.data fuBase
    let includedTransforms :=
      if d.included = [] then []
      else
        [{ id := fuBase ++ "-included",
           operations := d.included.map
             (fun res => Operation.updateRecord (deserializeIncluded pr.1 res)) }]
    (pr.1, pr.2 ++ includedTransforms)

/-- Modelled from the spec: the number of requests a list of operations
plans to: one per operation, none for replaceKey (spec sections 4.3 and
4.4). -/
def requestCount (ops : List Operation) : Nat :=
  (ops.filter (fun op =>
    match op with
    | Operation.replaceKey _ _ _ => false
    | _ => true)).length

/-- Modelled from the spec: the request ceiling check (spec section 4.4),
unbounded by default. -/
def withinLimit (cfg : SourceConfig) (n : Nat) : Bool :=
  match cfg.maxRequestsPerTransform with
  | some m => decide (n ≤ m)
  | none => true

/-- Modelled from the spec: the sequential executor loop (spec sections
4.5 and 5): each operation is translated against the current key map,
executed, and its response merged before the next operation is
considered, so a later request only sees identifiers established by
earlier merges; the issued requests are reported even when a failure
aborts the remainder. -/
def runOps (cfg : SourceConfig) (opts : PushOptions)
    (transport : Request → TransportOutcome) (tid : String) :
    KeyMap → List Operation → List Request → List Transform →
    List Request × Except PushError (KeyMap × List Transform)
  | km, [], issued, followUps => (issued, Except.ok (km, followUps))
  | km, op :: rest, issued, followUps =>
    match translateOp cfg opts km op with
    | Except.error e => (issued, Except.error e)
    | Except.ok none => runOps cfg opts transport tid km rest issued followUps
    | Except.ok (some req) =>
      match execute transport req with
      | Except.error e => (issued ++ [req], Except.error e)
      | Except.ok doc =>
        let merged := merge cfg km op req.body doc
          (tid ++ "-" ++ toString followUps.length)
        runOps cfg opts transport tid merged.1 rest (issued ++ [req])
          (followUps ++ merged.2)

/-- Modelled from the spec: the push pipeline (spec sections 2, 4.4 and
6): the beforePush event fires first, modelled by the beforePushLogs flag
saying whether a listener appended the transform id to the log, and a
transform already present in the log is skipped with an empty result; the
planned request count is then validated against the ceiling before any
request is issued; on success the caller receives the original transform
followed by every merge produced transform, all appended to the log.  The
first component of the result is the list of issued requests. -/
def push (cfg : SourceConfig) (opts : PushOptions) (beforePushLogs : Bool)
    (transport : Request → TransportOutcome) (st : PushState) (t : Transform) :
    List Request × Except PushError (PushState × List Transform) :=
  let log1 := if beforePushLogs then t.id :: st.log else st.log
  if t.id ∈ log1 then ([], Except.ok ({ st with log := log1 }, []))
  else if withinLimit cfg (requestCount t.operations) then
    match runOps cfg opts transport t.id st.keyMap t.operations [] [] with
    | (issued, Except.error e) => (issued, Except.error e)
    | (issued, Except.ok (km2, followUps)) =>
      (issued,
       Except.ok ({ keyMap := km2, log := log1 ++ t.id :: followUps.map Transform.id },
                  t :: followUps))
  else ([], Except.error PushError.transformNotAllowed)

/-- Lookup in an extended key map: the new binding wins on its own
identity and every other identity is unchanged. -/
theorem KeyMap.lookup_insert (km : KeyMap) (ty lid v ty2 lid2 : String) :
    KeyMap.lookup (KeyMap.insert km ty lid v) ty2 lid2
      = if (ty, lid) = (ty2, lid2) then some v else KeyMap.lookup km ty2 lid2 := rfl

/-- A transport outcome that arrives immediately is never cut off by a
timeout, whatever the configured threshold is. -/
theorem raceTimeout_zero (t : Option Nat) (k : Except PushError (Option ResponseDoc)) :
    raceTimeout t 0 k = k := by
  cases t <;> simp [raceTimeout]

/-- C6: for every pushed transform, if a beforePush listener records the
transform id in the transform log before execution proceeds, then no
HTTP request is issued for that transform and the push resolves with an
empty result. -/
theorem push_skipped_when_beforePush_logs (cfg : SourceConfig) (opts : PushOptions)
    (transport : Request → TransportOutcome) (st : PushState) (t : Transform) :
    push cfg opts true transport st t
      = ([], Except.ok ({ keyMap := st.keyMap, log := t.id :: st.log }, [])) := by
  simp [push]

/-- C2: for every transform whose operations plan to more requests than
the configured maxRequestsPerTransform ceiling allows, the push fails
with TransformNotAllowed and no HTTP request is issued. -/
theorem push_maxRequests_exceeded_rejected (cfg : SourceConfig) (opts : PushOptions)
    (transport : Request → TransportOutcome) (st : PushState) (t : Transform) (m : Nat)
    (hm : cfg.maxRequestsPerTransform = some m)
    (hlt : m < requestCount t.operations)
    (hlog : t.id ∉ st.log) :
    push cfg opts false transport st t
      = ([], Except.error PushError.transformNotAllowed) := by
  have hw : withinLimit cfg (requestCount t.operations) = false := by
    simp [withinLimit, hm]
    omega
  simp [push, hlog, hw]

/-- C2 witness: two removeRecord operations against a ceiling of one. -/
theorem push_maxRequests_exceeded_rejected_witness :
    push { secondaryKey := "remoteId", maxRequestsPerTransform := some 1, defaultTimeout := none }
      { timeout := none, url := none } false
      (fun _ => TransportOutcome.resolved { status := 200, document := none, delay := 0 })
      { keyMap := [(("planet", "1"), "1"), (("planet", "2"), "2")], log := [] }
      { id := "t2", operations := [Operation.removeRecord { type := "planet", id := "1" },
          Operation.removeRecord { type := "planet", id := "2" }] }
      = ([], Except.error PushError.transformNotAllowed) :=
  push_maxRequests_exceeded_rejected _ _ _ _ _ 1 rfl (by decide) (by decide)

/-- C7: every replaceAttribute operation on a resolvable record is a
PATCH to the resource path whose body holds only the single changed
attribute field, and every removeRecord operation is a DELETE to the
resource path with no body. -/
theorem translateOp_replaceAttribute_removeRecord (cfg : SourceConfig)
    (opts : PushOptions) (km : KeyMap) (ty lid a v wid : String)
    (hurl : opts.url = none)
    (hkm : KeyMap.lookup km ty lid = some wid) :
    translateOp cfg opts km (Operation.replaceAttribute { type := ty, id := lid } a v)
      = Except.ok (some
          { method := Method.patch, url := resourcePath ty wid,
            headers := jsonapiHeaders,
            body := some
              { data :=
                  RequestDocData.res
                    { type := ty, id := some wid,
                      attributes := [(a, v)], relationships := [] } },
            timeoutMs := effectiveTimeout opts cfg })
    ∧ translateOp cfg opts km (Operation.removeRecord { type := ty, id := lid })
      = Except.ok (some
          { method := Method.delete, url := resourcePath ty wid, headers := [],
            body := none, timeoutMs := effectiveTimeout opts cfg }) := by
  constructor <;> simp [translateOp, hkm, hurl]

/-- C7 witness: the replaceAttribute and removeRecord requests of the
test scenarios, at remote id 12345. -/
theorem translateOp_replaceAttribute_removeRecord_witness :
    translateOp { secondaryKey := "remoteId", maxRequestsPerTransform := none, defaultTimeout := none }
        { timeout := none, url := none } [(("planet", "p1"), "12345")]
        (Operation.replaceAttribute { type := "planet", id := "p1" } "classification" "terrestrial")
      = Except.ok (some
          { method := Method.patch, url := resourcePath "planet" "12345",
            headers := jsonapiHeaders,
            body := some
              { data :=
                  RequestDocData.res
                    { type := "planet", id := some "12345",
                      attributes := [("classification", "terrestrial")], relationships := [] } },
            timeoutMs := effectiveTimeout { timeout := none, url := none }
              { secondaryKey := "remoteId", maxRequestsPerTransform := none, defaultTimeout := none } })
    ∧ translateOp { secondaryKey := "remoteId", maxRequestsPerTransform := none, defaultTimeout := none }
        { timeout := none, url := none } [(("planet", "p1"), "12345")]
        (Operation.removeRecord { type := "planet", id := "p1" })
      = Except.ok (some
          { method := Method.delete, url := resourcePath "planet" "12345", headers := [],
            body := none,
            timeoutMs := effectiveTimeout { timeout := none, url := none }
              { secondaryKey := "remoteId", maxRequestsPerTransform := none, defaultTimeout := none } }) :=
  translateOp_replaceAttribute_removeRecord _ _ _ _ _ _ _ _ rfl (by decide)

/-- C8: for every non-empty attribute map, filterAttributes builds a
filter node whose predicate is the single equal node unwrapped when the
map has exactly one entry, and the and combination of the per-entry
equal nodes when it has more than one. -/
theorem filterAttributes_shape (self : QueryExpression)
    (kvs : List (String × String)) (h : kvs ≠ []) :
    (kvs.length = 1 → ∃ k v, kvs = [(k, v)]
      ∧ Records.filterAttributes self kvs
          = QueryExpression.filter self
              (QueryExpression.equal (QueryExpression.attr k) v))
    ∧ (1 < kvs.length → Records.filterAttributes self kvs
        = QueryExpression.filter self
            (QueryExpression.and (kvs.map
              (fun kv => QueryExpression.equal (QueryExpression.attr kv.1) kv.2)))) := by
  constructor
  · intro hlen
    rcases kvs with _ | ⟨⟨k, v⟩, rest⟩
    · cases h rfl
    · rcases rest with _ | ⟨b, rest2⟩
      · exact ⟨k, v, rfl, rfl⟩
      · simp at hlen
  · intro hlen
    rcases kvs with _ | ⟨a, rest⟩
    · cases h rfl
    · rcases rest with _ | ⟨b, rest2⟩
      · simp at hlen
      · rfl

/-- C8 witness: a one-entry map stays unwrapped and a two-entry map is
combined with an and node. -/
theorem filterAttributes_shape_witness :
    Records.filterAttributes (QueryExpression.record "planet" "1") [("name", "Jupiter")]
      = QueryExpression.filter (QueryExpression.record "planet" "1")
          (QueryExpression.equal (QueryExpression.attr "name") "Jupiter")
    ∧ Records.filterAttributes (QueryExpression.record "planet" "1")
        [("name", "Jupiter"), ("age", "2")]
      = QueryExpression.filter (QueryExpression.record "planet" "1")
          (QueryExpression.and
            [QueryExpression.equal (QueryExpression.attr "name") "Jupiter",
             QueryExpression.equal (QueryExpression.attr "age") "2"]) := by
  constructor
  · obtain ⟨k, v, hkv, he⟩ :=
      (filterAttributes_shape (QueryExpression.record "planet" "1")
        [("name", "Jupiter")] (by decide)).1 rfl
    cases hkv
    exact he
  · exact (filterAttributes_shape (QueryExpression.record "planet" "1")
      [("name", "Jupiter"), ("age", "2")] (by decide)).2 (by decide)

/-- C10: a sort argument that is neither an object nor a string is
refused with the exact message of the source, and an object sort
expression without an attribute field is refused with the unsupported
sort field message; in both cases no sort node is produced. -/
theorem parseSortExpression_invalid_inputs :
    parseSortExpression SortParam.other
      = Except.error "Sort expression must be either an object or a string."
    ∧ ∀ o, parseSortExpression (SortParam.obj none o)
      = Except.error "Unsupported sort field type." :=
  ⟨rfl, fun _ => rfl⟩

/-- C9 counterexample: an order IS given (the empty string), it is
neither ascending nor descending, yet parsing succeeds with an ascending
sort instead of failing with a validation error, because the JavaScript
or-default treats the empty string as absent. -/
theorem sort_order_empty_counterexample :
    (some "" : Option String) ≠ none
    ∧ "" ≠ "ascending"
    ∧ "" ≠ "descending"
    ∧ parseSortExpression (SortParam.obj (some "name") (some ""))
        = Except.ok { field := QueryExpression.attr "name", order := "ascending" } :=
  ⟨by decide, by decide, by decide, rfl⟩

/-- C9 amended: for an object sort expression the order defaults to
ascending when no order is given or when the given order is the empty
string (the only falsy string), parsing succeeds on ascending and
descending, and fails with a validation error for every other non-empty
order; for a string a leading minus yields a descending sort on the
remaining substring and any string not starting with a minus yields an
ascending sort on the whole string. -/
theorem parseSortExpression_spec :
    (∀ a, parseSortExpression (SortParam.obj (some a) none)
      = Except.ok { field := QueryExpression.attr a, order := "ascending" })
    ∧ (∀ a, parseSortExpression (SortParam.obj (some a) (some ""))
      = Except.ok { field := QueryExpression.attr a, order := "ascending" })
    ∧ (∀ a, parseSortExpression (SortParam.obj (some a) (some "ascending"))
      = Except.ok { field := QueryExpression.attr a, order := "ascending" })
    ∧ (∀ a, parseSortExpression (SortParam.obj (some a) (some "descending"))
      = Except.ok { field := QueryExpression.attr a, order := "descending" })
    ∧ (∀ a s, s ≠ "" → s ≠ "ascending" → s ≠ "descending" →
      parseSortExpression (SortParam.obj (some a) (some s))
        = Except.error "Invalid sort order.")
    ∧ (∀ cs, parseSortExpression (SortParam.str (String.mk ('-' :: cs)))
      = Except.ok { field := QueryExpression.attr (String.mk cs), order := "descending" })
    ∧ (∀ s, s.data.head? ≠ some '-' → parseSortExpression (SortParam.str s)
      = Except.ok { field := QueryExpression.attr s, order := "ascending" }) := by
  refine ⟨fun a => rfl, fun a => rfl, fun a => rfl, fun a => rfl, ?_, fun cs => rfl, ?_⟩
  · intro a s hs hasc hdesc
    simp [parseSortExpression, parseSortExpressionObject, hs, hasc, hdesc]
  · intro s hs
    obtain ⟨l⟩ := s
    rcases l with _ | ⟨c, cs⟩
    · rfl
    · have hc : c ≠ '-' := by
        simpa using hs
      simp [parseSortExpression, parseCompactSortExpression, hc]

/-- C9 witness: a bogus order string is rejected, a plain attribute
string parses as an ascending sort. -/
theorem parseSortExpression_spec_witness :
    parseSortExpression (SortParam.obj (some "name") (some "bogus"))
      = Except.error "Invalid sort order."
    ∧ parseSortExpression (SortParam.str "name")
      = Except.ok { field := QueryExpression.attr "name", order := "ascending" } :=
  ⟨parseSortExpression_spec.2.2.2.2.1 "name" "bogus" (by decide) (by decide) (by decide),
   parseSortExpression_spec.2.2.2.2.2.2 "name" (by decide)⟩

/-- C3: with an effective timeout of T milliseconds (whether from the
source default or the per call option, the latter taking precedence),
a transport response that does not resolve within T fails the push with
a NetworkError whose description states the threshold sentence. -/
theorem push_timeout_network_error (cfg : SourceConfig) (opts : PushOptions)
    (st : PushState) (tid ty lid a v wid : String) (T d status : Nat)
    (doc : Option ResponseDoc)
    (hkm : KeyMap.lookup st.keyMap ty lid = some wid)
    (hlog : tid ∉ st.log)
    (hlim : withinLimit cfg 1 = true)
    (het : effectiveTimeout opts cfg = some T)
    (hT : T < d) :
    (∃ req, push cfg opts false
        (fun _ => TransportOutcome.resolved { status := status, document := doc, delay := d })
        st { id := tid, operations := [Operation.replaceAttribute { type := ty, id := lid } a v] }
      = ([req], Except.error (PushError.networkError
          ("No fetch response within " ++ toString T ++ "ms."))))
    ∧ ∀ (tt : Nat) (u : Option String) (c : SourceConfig),
        effectiveTimeout { timeout := some tt, url := u } c = some tt := by
  constructor
  · simp only [push, runOps, translateOp, execute, raceTimeout, requestCount,
      hkm, hlog, hlim, het, hT]
    simp [hlog, hlim, hT]
  · intro tt u c
    rfl

/-- C3 witness: a 10ms timeout against a 20ms response, yielding the
exact sentence of the test. -/
theorem push_timeout_network_error_witness :
    ∃ req, push { secondaryKey := "remoteId", maxRequestsPerTransform := none, defaultTimeout := some 10 }
        { timeout := none, url := none } false
        (fun _ => TransportOutcome.resolved { status := 200, document := none, delay := 20 })
        { keyMap := [(("planet", "p1"), "12345")], log := [] }
        { id := "t3", operations := [Operation.replaceAttribute { type := "planet", id := "p1" } "classification" "terrestrial"] }
      = ([req], Except.error (PushError.networkError
          ("No fetch response within " ++ toString 10 ++ "ms."))) :=
  (push_timeout_network_error
    { secondaryKey := "remoteId", maxRequestsPerTransform := none, defaultTimeout := some 10 }
    { timeout := none, url := none }
    { keyMap := [(("planet", "p1"), "12345")], log := [] }
    "t3" "planet" "p1" "classification" "terrestrial" "12345" 10 20 200 none
    (by decide) (by decide) rfl rfl (by decide)).1

/-- C5: for a replaceAttribute or updateRecord operation whose response
carries attribute values differing from the sent ones, the merger emits
exactly one combined follow-up Transform whose operations are one
replaceAttribute per changed field, in response order, followed by a
replaceKey exactly when the response id differs from the sent id. -/
theorem merge_remote_changes_combined_transform :
    (∀ (cfg : SourceConfig) (km : KeyMap) (ty lid a v wid nid fu : String)
      (ra : List (String × String)),
      changedAttributes [(a, v)] ra ≠ [] →
      (merge cfg km (Operation.replaceAttribute { type := ty, id := lid } a v)
          (some { data :=
                    RequestDocData.res
                      { type := ty, id := some wid, attributes := [(a, v)],
                        relationships := [] } })
          (some { data := some { type := ty, id := some nid, attributes := ra, relationships := [] },
                  included := [] }) fu).2
        = [{ id := fu ++ "-attrs",
             operations :=
               (changedAttributes [(a, v)] ra).map
                 (fun kv => Operation.replaceAttribute { type := ty, id := lid } kv.1 kv.2)
               ++ (if wid = nid then []
                   else [Operation.replaceKey { type := ty, id := lid } cfg.secondaryKey nid]) }])
    ∧ (∀ (cfg : SourceConfig) (km : KeyMap) (r : Record) (wid nid fu : String)
      (ra : List (String × String)),
      changedAttributes r.attributes ra ≠ [] →
      (merge cfg km (Operation.updateRecord r)
          (some { data :=
                    RequestDocData.res
                      { type := r.type, id := some wid, attributes := r.attributes,
                        relationships := [] } })
          (some { data := some { type := r.type, id := some nid, attributes := ra, relationships := [] },
                  included := [] }) fu).2
        = [{ id := fu ++ "-attrs",
             operations :=
               (changedAttributes r.attributes ra).map
                 (fun kv => Operation.replaceAttribute { type := r.type, id := r.id } kv.1 kv.2)
               ++ (if wid = nid then []
                   else [Operation.replaceKey { type := r.type, id := r.id } cfg.secondaryKey nid]) }]) := by
  constructor
  · intro cfg km ty lid a v wid nid fu ra hch
    by_cases hw : wid = nid <;>
      simp [merge, mergePrimary, attrMerge, sentAttributesOf, sentIdOf, hw, hch]
  · intro cfg km r wid nid fu ra hch
    by_cases hw : wid = nid <;>
      simp [merge, mergePrimary, attrMerge, sentAttributesOf, sentIdOf, hw, hch]

/-- C5 witness: the remote changes scenario of the test: the server
renames to Mars and assigns a new id, so the combined Transform holds
one replaceAttribute and one replaceKey, in that order. -/
theorem merge_remote_changes_combined_transform_witness :
    (merge { secondaryKey := "remoteId", maxRequestsPerTransform := none, defaultTimeout := none }
        [(("planet", "p1"), "12345")]
        (Operation.replaceAttribute { type := "planet", id := "p1" } "classification" "terrestrial")
        (some { data :=
                  RequestDocData.res
                    { type := "planet", id := some "12345",
                      attributes := [("classification", "terrestrial")],
                      relationships := [] } })
        (some { data :=
                  some { type := "planet", id := some "remote-id-123",
                         attributes := [("name", "Mars"), ("classification", "terrestrial")],
                         relationships := [] },
                included := [] }) "t5-0").2
      = [{ id := "t5-0" ++ "-attrs",
           operations :=
             (changedAttributes [("classification", "terrestrial")]
                 [("name", "Mars"), ("classification", "terrestrial")]).map
               (fun kv => Operation.replaceAttribute { type := "planet", id := "p1" } kv.1 kv.2)
             ++ (if "12345" = "remote-id-123" then []
                 else [Operation.replaceKey { type := "planet", id := "p1" } "remoteId" "remote-id-123"]) }] :=
  merge_remote_changes_combined_transform.1 _ _ "planet" "p1" "classification" "terrestrial"
    "12345" "remote-id-123" "t5-0" [("name", "Mars"), ("classification", "terrestrial")]
    (by decide)

/-- C1: for every addRecord operation whose record has no known primary
id, the serialized body omits the id member and always carries the type;
a successful 201 response with a server assigned id produces exactly one
follow-up Transform holding a single replaceKey operation binding the
configured secondary key to that id, and the caller receives exactly two
Transforms, the original first and the replaceKey Transform second. -/
theorem push_addRecord_assigns_remote_key (cfg : SourceConfig) (opts : PushOptions)
    (st : PushState) (tid sid : String) (r : Record) (ra : List (String × String))
    (hkm : KeyMap.lookup st.keyMap r.type r.id = none)
    (hlog : tid ∉ st.log)
    (hlim : withinLimit cfg 1 = true) :
    ∃ req st2 fuid,
      push cfg opts false
        (fun _ => TransportOutcome.resolved
          { status := 201,
            document :=
              some { data :=
                       some { type := r.type, id := some sid, attributes := ra,
                              relationships := [] },
                     included := [] },
            delay := 0 })
        st { id := tid, operations := [Operation.addRecord r] }
      = ([req],
         Except.ok (st2,
           [{ id := tid, operations := [Operation.addRecord r] },
            { id := fuid,
              operations := [Operation.replaceKey { type := r.type, id := r.id }
                cfg.secondaryKey sid] }]))
      ∧ req.body = some
          { data :=
              RequestDocData.res
                { type := r.type, id := none, attributes := r.attributes,
                  relationships := [] } }
      ∧ req.method = Method.post := by
  simp only [push, runOps, translateOp, execute, raceTimeout_zero, classifyResponse,
    merge, mergePrimary, serializeRecord, requestCount, hkm, hlog, hlim]
  simp [hlog, hlim]

/-- C1 witness: the Jupiter scenario of the test at the stubbed 201
response assigning id 12345. -/
theorem push_addRecord_assigns_remote_key_witness :
    ∃ req st2 fuid,
      push { secondaryKey := "remoteId", maxRequestsPerTransform := none, defaultTimeout := none }
        { timeout := none, url := none } false
        (fun _ => TransportOutcome.resolved
          { status := 201,
            document :=
              some { data :=
                       some { type := "planet", id := some "12345",
                              attributes := [("name", "Jupiter"), ("classification", "gas giant")],
                              relationships := [] },
                     included := [] },
            delay := 0 })
        { keyMap := [], log := [] }
        { id := "t1",
          operations := [Operation.addRecord
            { type := "planet", id := "p1",
              attributes := [("name", "Jupiter"), ("classification", "gas giant")] }] }
      = ([req],
         Except.ok (st2,
           [{ id := "t1",
              operations := [Operation.addRecord
                { type := "planet", id := "p1",
                  attributes := [("name", "Jupiter"), ("classification", "gas giant")] }] },
            { id := fuid,
              operations := [Operation.replaceKey { type := "planet", id := "p1" }
                "remoteId" "12345"] }]))
      ∧ req.body = some
          { data :=
              RequestDocData.res
                { type := "planet", id := none,
                  attributes := [("name", "Jupiter"), ("classification", "gas giant")],
                  relationships := [] } }
      ∧ req.method = Method.post :=
  push_addRecord_assigns_remote_key
    { secondaryKey := "remoteId", maxRequestsPerTransform := none, defaultTimeout := none }
    { timeout := none, url := none }
    { keyMap := [], log := [] }
    "t1" "12345"
    { type := "planet", id := "p1",
      attributes := [("name", "Jupiter"), ("classification", "gas giant")] }
    [("name", "Jupiter"), ("classification", "gas giant")]
    rfl (by decide) rfl

/-- C4: in a transform holding an addRecord for a record with no known
primary id followed by an operation referencing that record, the second
request is built only after the create response has been merged into the
key map, so its body carries the server assigned id of that response and
not the local id. -/
theorem push_dependent_request_uses_assigned_id (cfg : SourceConfig) (opts : PushOptions)
    (st : PushState) (tid sid rel mid : String) (p : Record) (m : RecordIdentity)
    (ra : List (String × String))
    (hkmp : KeyMap.lookup st.keyMap p.type p.id = none)
    (hkmm : KeyMap.lookup st.keyMap m.type m.id = some mid)
    (hne : ¬(p.type = m.type ∧ p.id = m.id))
    (hurl : opts.url = none)
    (hu2 : resourcePath m.type mid ≠ collectionPath p.type)
    (hlog : tid ∉ st.log)
    (hlim : withinLimit cfg 2 = true) :
    ∃ req1 st2 fuid,
      push cfg opts false
        (fun q =>
          if q.url = collectionPath p.type then
            TransportOutcome.resolved
              { status := 201,
                document :=
                  some { data :=
                           some { type := p.type, id := some sid, attributes := ra,
                                  relationships := [] },
                         included := [] },
                delay := 0 }
          else TransportOutcome.resolved { status := 200, document := none, delay := 0 })
        st { id := tid,
             operations := [Operation.addRecord p,
               Operation.replaceRelatedRecord m rel (some { type := p.type, id := p.id })] }
      = ([req1,
          { method := Method.patch, url := resourcePath m.type mid,
            headers := jsonapiHeaders,
            body := some
              { data :=
                  RequestDocData.res
                    { type := m.type, id := some mid, attributes := [],
                      relationships := [(rel, RelationshipData.hasOne
                        (some { type := p.type, id := sid }))] } },
            timeoutMs := effectiveTimeout opts cfg }],
         Except.ok (st2,
           [{ id := tid,
              operations := [Operation.addRecord p,
                Operation.replaceRelatedRecord m rel (some { type := p.type, id := p.id })] },
            { id := fuid,
              operations := [Operation.replaceKey { type := p.type, id := p.id }
                cfg.secondaryKey sid] }])) := by
  simp [push, runOps, translateOp, execute, raceTimeout_zero, classifyResponse,
    merge, mergePrimary, serializeRecord, resourceIdentity, requestCount,
    KeyMap.lookup_insert, hkmp, hkmm, hne, hurl, hu2, hlog, hlim]

/-- C4 witness: the newly created planet scenario of the test: the
second request, a PATCH on the moon, references planet-remote-id, the id
assigned by the first response, not the local id jupiter. -/
theorem push_dependent_request_uses_assigned_id_witness :
    ∃ req1 st2 fuid,
      push { secondaryKey := "remoteId", maxRequestsPerTransform := none, defaultTimeout := none }
        { timeout := none, url := none } false
        (fun q =>
          if q.url = collectionPath "planet" then
            TransportOutcome.resolved
              { status := 201,
                document :=
                  some { data :=
                           some { type := "planet", id := some "planet-remote-id",
                                  attributes := [("name", "Jupiter")],
                                  relationships := [] },
                         included := [] },
                delay := 0 }
          else TransportOutcome.resolved { status := 200, document := none, delay := 0 })
        { keyMap := [(("moon", "m1"), "987")], log := [] }
        { id := "t4",
          operations := [Operation.addRecord
              { type := "planet", id := "jupiter", attributes := [("name", "Jupiter")] },
            Operation.replaceRelatedRecord { type := "moon", id := "m1" } "planet"
              (some { type := "planet", id := "jupiter" })] }
      = ([req1,
          { method := Method.patch, url := resourcePath "moon" "987",
            headers := jsonapiHeaders,
            body := some
              { data :=
                  RequestDocData.res
                    { type := "moon", id := some "987", attributes := [],
                      relationships := [("planet", RelationshipData.hasOne
                        (some { type := "planet", id := "planet-remote-id" }))] } },
            timeoutMs := effectiveTimeout { timeout := none, url := none }
              { secondaryKey := "remoteId", maxRequestsPerTransform := none, defaultTimeout := none } }],
         Except.ok (st2,
           [{ id := "t4",
              operations := [Operation.addRecord
                  { type := "planet", id := "jupiter", attributes := [("name", "Jupiter")] },
                Operation.replaceRelatedRecord { type := "moon", id := "m1" } "planet"
                  (some { type := "planet", id := "jupiter" })] },
            { id := fuid,
              operations := [Operation.replaceKey { type := "planet", id := "jupiter" }
                "remoteId" "planet-remote-id"] }])) :=
  push_dependent_request_uses_assigned_id
    { secondaryKey := "remoteId", maxRequestsPerTransform := none, defaultTimeout := none }
    { timeout := none, url := none }
    { keyMap := [(("moon", "m1"), "987")], log := [] }
    "t4" "planet-remote-id" "planet" "987"
    { type := "planet", id := "jupiter", attributes := [("name", "Jupiter")] }
    { type := "moon", id := "m1" }
    [("name", "Jupiter")]
    (by decide) (by decide) (by decide) rfl (by decide) (by decide) rfl
